import Mathlib

/-!
Shallow embedding of the speak-mcp request-dispatch core (src/src/main.rs)
and the config editor's loader (src/speak-config/src/main.rs).

JSON values are modelled by an inductive `Json` type; serde_json object
lookup and index-assignment are modelled by association-list operations;
HTTP, the OS playback utility, the `say` utility and the filesystem are
modelled as explicit parameters, with `Option` encoding the fallible
library calls the source propagates with `?`.
-/

/-- Model of `serde_json::Value`. Numbers are rationals: the source only
moves numeric literals and parsed values around, never computes with them. -/
inductive Json where
  | null : Json
  | bool (b : Bool) : Json
  | num (q : Rat) : Json
  | str (s : String) : Json
  | arr (xs : List Json) : Json
  | obj (kvs : List (String × Json)) : Json
  deriving Repr

/-- Lookup of a key in a JSON object's field list (serde map lookup). -/
def lookupKV : List (String × Json) → String → Option Json
  | [], _ => none
  | (k', v) :: rest, k => if k' = k then some v else lookupKV rest k

/-- `value.get(key)` on a JSON value: `none` unless it is an object with the key. -/
def Json.getField : Json → String → Option Json
  | .obj kvs, k => lookupKV kvs k
  | _, _ => none

/-- Replace the value at a key, or append the pair when absent (serde map insert). -/
def setKV : List (String × Json) → String → Json → List (String × Json)
  | [], k, v => [(k, v)]
  | (k', v') :: rest, k, v =>
      if k' = k then (k, v) :: rest else (k', v') :: setKV rest k v

/-- Model of `value[key] = v` (`serde_json::Value::IndexMut`): insert into an
object, turn `null` into a one-field object, and panic (`none`) otherwise. -/
def Json.setField : Json → String → Json → Option Json
  | .obj kvs, k, v => some (.obj (setKV kvs k v))
  | .null, k, v => some (.obj [(k, v)])
  | _, _, _ => none

/-- `struct StyleInfo { name: String, id: u32 }` -/
structure StyleInfo where
  name : String
  id : Nat
  deriving Repr, DecidableEq

/-- `struct SpeakerInfo { name: String, styles: Vec<StyleInfo> }` -/
structure SpeakerInfo where
  name : String
  styles : List StyleInfo
  deriving Repr, DecidableEq

/-- `struct AppConfig` (same shape in both binaries). -/
structure AppConfig where
  voicevox_default_speaker : Option Nat
  aivis_default_speaker : Option Nat
  macos_default_voice : Option String
  deriving Repr, DecidableEq

/-- `AppConfig::default()`: every field absent. -/
def AppConfig.default : AppConfig :=
  ⟨none, none, none⟩

/-- `fn build_speaker_choice_schema(speakers, default_id) -> serde_json::Value`.
Field-for-field translation of src/src/main.rs lines 93-139. -/
def build_speaker_choice_schema
    (speakers : Option (List SpeakerInfo)) (default_id : Option Nat) : Json :=
  let default_val := default_id.getD 1
  match speakers with
  | some speakers =>
      let one_of := speakers.flatMap (fun speaker =>
        speaker.styles.map (fun style =>
          Json.obj [("const", .num style.id),
                    ("title", .str (speaker.name ++ " (" ++ style.name ++ ")"))]))
      Json.obj [("type", .str "object"),
        ("properties", .obj [
          ("text", .obj [("type", .str "string")]),
          ("speaker", .obj [("oneOf", .arr one_of), ("default", .num default_val)]),
          ("speed", .obj [("type", .str "number"), ("default", .num 1)])]),
        ("required", .arr [.str "text"])]
  | none =>
      Json.obj [("type", .str "object"),
        ("properties", .obj [
          ("text", .obj [("type", .str "string")]),
          ("speaker", .obj [("type", .str "integer"), ("default", .num default_val)]),
          ("speed", .obj [("type", .str "number"), ("default", .num 1)])]),
        ("required", .arr [.str "text"])]

/-- `struct VoiceEngineArgs { text: String, speaker: Option<u32>, speed: Option<f32> }` -/
structure VoiceEngineArgs where
  text : String
  speaker : Option Nat
  speed : Option Rat
  deriving Repr, DecidableEq

/-- `struct SpeakArgs { text: String, voice: Option<String>, speed: Option<u32> }` -/
structure SpeakArgs where
  text : String
  voice : Option String
  speed : Option Nat
  deriving Repr, DecidableEq

/-- A JSON number deserializes into `u32` when it is a non-negative integer
below 2^32 (serde rejects fractions, negatives and overflow). -/
def ratAsU32 : Rat → Option Nat := fun q =>
  if q.den = 1 ∧ 0 ≤ q.num ∧ q.num < 4294967296 then some q.num.toNat else none

/-- Deserialize an optional `u32` field (absent and `null` both give `none`). -/
def fieldOptU32 (j : Json) (k : String) : Option (Option Nat) :=
  match j.getField k with
  | none => some none
  | some .null => some none
  | some (.num q) => (ratAsU32 q).map some
  | some _ => none

/-- Deserialize an optional `f32` field (absent and `null` both give `none`). -/
def fieldOptNum (j : Json) (k : String) : Option (Option Rat) :=
  match j.getField k with
  | none => some none
  | some .null => some none
  | some (.num q) => some (some q)
  | some _ => none

/-- Deserialize an optional `String` field (absent and `null` both give `none`). -/
def fieldOptStr (j : Json) (k : String) : Option (Option String) :=
  match j.getField k with
  | none => some none
  | some .null => some none
  | some (.str s) => some (some s)
  | some _ => none

/-- Deserialize a required `String` field. -/
def fieldStr (j : Json) (k : String) : Option String :=
  match j.getField k with
  | some (.str s) => some s
  | _ => none

/-- `serde_json::from_value::<VoiceEngineArgs>` on the tool arguments. -/
def parseVoiceEngineArgs (j : Json) : Option VoiceEngineArgs :=
  match j with
  | .obj _ => do
      let text ← fieldStr j "text"
      let speaker ← fieldOptU32 j "speaker"
      let speed ← fieldOptNum j "speed"
      some ⟨text, speaker, speed⟩
  | _ => none

/-- `serde_json::from_value::<SpeakArgs>` on the tool arguments. -/
def parseSpeakArgs (j : Json) : Option SpeakArgs :=
  match j with
  | .obj _ => do
      let text ← fieldStr j "text"
      let voice ← fieldOptStr j "voice"
      let speed ← fieldOptU32 j "speed"
      some ⟨text, voice, speed⟩
  | _ => none

/-- The distinct `anyhow` failures the dispatch paths can return. -/
inductive DispatchError where
  | argumentError : DispatchError
  | transportError : DispatchError
  | bodyParseError : DispatchError
  | tempFileError : DispatchError
  | fileWriteError : DispatchError
  | playbackLaunchError : DispatchError
  | playbackNonzeroError : DispatchError
  | sayLaunchError : DispatchError
  | sayNonzeroError : DispatchError
  deriving Repr, DecidableEq

/-- Result of a fallible call: `Ok`, a propagated `Err`, or a Rust panic
(only `serde_json::Value::IndexMut` on a non-object non-null value panics). -/
inductive Outcome (α : Type) where
  | ok (a : α) : Outcome α
  | err (e : DispatchError) : Outcome α
  | panicked : Outcome α
  deriving Repr, DecidableEq

/-- `struct CallToolResponse` restricted to the fields the source sets. -/
structure CallToolResponse where
  content : List String
  is_error : Option Bool
  deriving Repr, DecidableEq

/-- Externally observable steps of one HTTP-engine dispatch. -/
inductive Event where
  | evAudioQuery (text : String) (speaker : Nat) : Event
  | evSynthesis (speaker : Nat) (body : Json) : Event
  | evFileWrite (path : String) (data : List Nat) : Event
  | evPlayerInvoke (path : String) : Event
  | evFileRemove (path : String) : Event
  deriving Repr

/-- An `audio_query` HTTP response as the dispatcher observes it: the status
line and the result of parsing the body as JSON (`resp.json()` never looks at
the status, so a body is delivered for any status). -/
structure HttpResp where
  status : Nat
  bodyJson : Option Json
  deriving Repr

/-- A `synthesis` HTTP response: status line and raw body bytes
(`resp.bytes()` also ignores the status). -/
structure SynthResp where
  status : Nat
  bodyBytes : List Nat
  deriving Repr

/-- Test double for one HTTP voice engine: `none` models a transport failure
of `send()`; any delivered response carries its status and body. -/
structure Engine where
  audioQuery : String → Nat → Option HttpResp
  synthesis : Nat → Json → Option SynthResp

/-- Environment for `play_wav`: the files that already exist, the fresh name
`NamedTempFile::new` picks, whether creation and the write succeed, and the
playback utility (`none` = failed to launch, `some b` = exited, success `b`). -/
structure PlayEnv where
  existing : List String
  freshName : String
  tempCreateOk : Bool
  writeOk : Bool
  player : String → Option Bool

/-- Result of `play_wav`: outcome, observable events, and the files that
remain on disk after the function's scope (and the temp-file guard) exits. -/
structure PlayResult where
  result : Outcome Unit
  events : List Event
  finalFiles : List String
  deriving Repr

/-- `async fn play_wav(wav_data: &[u8]) -> Result<()>` (src/src/main.rs
lines 141-173, macOS branch): create a fresh named temp file, write the bytes,
run the blocking playback utility, fail on nonzero exit; the temp file is
removed when the guard drops, on every path after creation. -/
def play_wav (penv : PlayEnv) (wav : List Nat) : PlayResult :=
  if penv.tempCreateOk then
    if penv.writeOk then
      match penv.player penv.freshName with
      | none =>
          ⟨.err .playbackLaunchError,
           [.evFileWrite penv.freshName wav, .evPlayerInvoke penv.freshName,
            .evFileRemove penv.freshName],
           penv.existing⟩
      | some true =>
          ⟨.ok (), [.evFileWrite penv.freshName wav, .evPlayerInvoke penv.freshName,
            .evFileRemove penv.freshName], penv.existing⟩
      | some false =>
          ⟨.err .playbackNonzeroError,
           [.evFileWrite penv.freshName wav, .evPlayerInvoke penv.freshName,
            .evFileRemove penv.freshName],
           penv.existing⟩
    else
      ⟨.err .fileWriteError, [.evFileRemove penv.freshName], penv.existing⟩
  else
    ⟨.err .tempFileError, [], penv.existing⟩

/-- Result of one HTTP-engine dispatch: outcome, events in issue order, and
the files left on disk. -/
structure DispatchResult where
  result : Outcome CallToolResponse
  events : List Event
  finalFiles : List String
  deriving Repr

/-- `request.speakerId` if present, else the configured default if present,
else `1` — src/src/main.rs line 186. -/
def effectiveSpeaker (arg cfgDefault : Option Nat) : Nat :=
  (arg.or cfgDefault).getD 1

/-- `async fn call_voicevox_compatible(port, req, default_speaker)`
(src/src/main.rs lines 175-217): parse the arguments, resolve speaker and
speed, POST `audio_query`, parse its body as JSON, set `speedScale`, POST
`synthesis` with the mutated document, and play the returned bytes. -/
def call_voicevox_compatible (eng : Engine) (penv : PlayEnv)
    (arguments : Option Json) (default_speaker : Option Nat) : DispatchResult :=
  match arguments with
  | none => ⟨.err .argumentError, [], penv.existing⟩
  | some argsVal =>
    match parseVoiceEngineArgs argsVal with
    | none => ⟨.err .argumentError, [], penv.existing⟩
    | some args =>
      let speaker_id := effectiveSpeaker args.speaker default_speaker
      let speed_scale := args.speed.getD 1
      match eng.audioQuery args.text speaker_id with
      | none =>
          ⟨.err .transportError, [.evAudioQuery args.text speaker_id], penv.existing⟩
      | some queryRes =>
        match queryRes.bodyJson with
        | none =>
            ⟨.err .bodyParseError, [.evAudioQuery args.text speaker_id], penv.existing⟩
        | some queryJson =>
          match queryJson.setField "speedScale" (.num speed_scale) with
          | none =>
              ⟨.panicked, [.evAudioQuery args.text speaker_id], penv.existing⟩
          | some queryJson2 =>
            match eng.synthesis speaker_id queryJson2 with
            | none =>
                ⟨.err .transportError,
                 [.evAudioQuery args.text speaker_id,
                  .evSynthesis speaker_id queryJson2], penv.existing⟩
            | some synthesisRes =>
              let wav_data := synthesisRes.bodyBytes
              let pw := play_wav penv wav_data
              ⟨match pw.result with
                | .ok _ => .ok ⟨["読み上げ完了！✨"], some false⟩
                | .err e => .err e
                | .panicked => .panicked,
               [.evAudioQuery args.text speaker_id,
                .evSynthesis speaker_id queryJson2] ++ pw.events,
               pw.finalFiles⟩

/-- One config-file read as `load_config` observes it: `none` = the read
failed, `some none` = read succeeded but the JSON did not parse,
`some (some c)` = read and parse both succeeded. -/
def ReadResult : Type := Option (Option AppConfig)

/-- The filesystem as the server's `load_config` (src/src/main.rs lines
45-82) can observe it: whether a home directory resolves (it decides the
primary path), the read at `~/speak-mcp/config.json`, and the read at
`<exe dir>/config.json` (the fallback location). -/
structure ServerFs where
  hasHome : Bool
  homeRead : ReadResult
  exeRead : ReadResult

/-- The filesystem as the editor's `load_config`
(src/speak-config/src/main.rs lines 38-79) can observe it: the same primary
path rule, plus the read at `./config.json` in the current working
directory (the editor's fallback location). -/
structure EditorFs where
  hasHome : Bool
  homeRead : ReadResult
  exeRead : ReadResult
  cwdRead : ReadResult

/-- `fn load_config() -> AppConfig` in the server (src/src/main.rs lines
59-82): try the primary path; on read or parse failure try
`<exe dir>/config.json` unless it is the same path; on every failure return
the default config. -/
def load_config (fs : ServerFs) : AppConfig :=
  if fs.hasHome then
    match fs.homeRead with
    | some (some config) => config
    | _ =>
        match fs.exeRead with
        | some (some config) => config
        | _ => AppConfig.default
  else
    match fs.exeRead with
    | some (some config) => config
    | _ => AppConfig.default

/-- `fn load_config() -> AppConfig` in the config editor
(src/speak-config/src/main.rs lines 58-79): try the primary path; the
`./config.json` fallback is attempted only when the primary READ fails — a
readable but unparseable primary file falls straight through to the default. -/
def editor_load_config (fs : EditorFs) : AppConfig :=
  let primaryRead := if fs.hasHome then fs.homeRead else fs.exeRead
  match primaryRead with
  | some (some config) => config
  | some none => AppConfig.default
  | none =>
      match fs.cwdRead with
      | some (some config) => config
      | _ => AppConfig.default

/-- The VOICEVOX default captured by the `speak_voicevox` closure: read from
the config loaded once in `main` (src/src/main.rs lines 226-247). -/
def vv_default_at_startup (startupFs : ServerFs) : Option Nat :=
  (load_config startupFs).voicevox_default_speaker

/-- The Aivis default captured by the `speak_aivis` closure (lines 250-262). -/
def aivis_default_at_startup (startupFs : ServerFs) : Option Nat :=
  (load_config startupFs).aivis_default_speaker

/-- One inbound `speak_voicevox` call as `main` wires it: the closure passes
the startup-captured default to `call_voicevox_compatible`; the filesystem at
call time (`callFs`) is never consulted. -/
def dispatch_voicevox (startupFs : ServerFs) (_callFs : ServerFs)
    (eng : Engine) (penv : PlayEnv) (arguments : Option Json) : DispatchResult :=
  call_voicevox_compatible eng penv arguments (vv_default_at_startup startupFs)

/-- One inbound `speak_aivis` call as `main` wires it. -/
def dispatch_aivis (startupFs : ServerFs) (_callFs : ServerFs)
    (eng : Engine) (penv : PlayEnv) (arguments : Option Json) : DispatchResult :=
  call_voicevox_compatible eng penv arguments (aivis_default_at_startup startupFs)

/-- Observable steps of one native `speak` (macOS `say`) call. -/
inductive SayEvent where
  | loadConfigEv (c : AppConfig) : SayEvent
  | sayInvokeEv (argv : List String) : SayEvent
  deriving Repr, DecidableEq

/-- Result of one native `speak` call. -/
structure SayResult where
  result : Outcome CallToolResponse
  events : List SayEvent
  deriving Repr

/-- The `say` command line built by the handler: text, then `-v voice` when a
voice was resolved, then `-r rate` when a speed was given
(src/src/main.rs lines 316-325). -/
def sayArgv (args : SpeakArgs) (resolvedVoice : Option String) : List String :=
  [args.text]
    ++ (match resolvedVoice with
        | some v => ["-v", v]
        | none => [])
    ++ (match args.speed with
        | some s => ["-r", toString s]
        | none => [])

/-- The `speak` tool handler registered in `main` (src/src/main.rs lines
301-338): parse the arguments, re-load the config from the call-time
filesystem, resolve the voice as argument-else-config-else-omit, run `say`
synchronously, and fail on launch failure or nonzero exit. `sayRun` models
`Command::status`: `none` = failed to launch, `some b` = exited, success `b`. -/
def speak_tool_handler (callFs : ServerFs) (sayRun : List String → Option Bool)
    (arguments : Option Json) : SayResult :=
  match arguments with
  | none => ⟨.err .argumentError, []⟩
  | some argsVal =>
    match parseSpeakArgs argsVal with
    | none => ⟨.err .argumentError, []⟩
    | some args =>
      let current_config := load_config callFs
      let argv := sayArgv args (args.voice.or current_config.macos_default_voice)
      match sayRun argv with
      | none =>
          ⟨.err .sayLaunchError, [.loadConfigEv current_config, .sayInvokeEv argv]⟩
      | some true =>
          ⟨.ok ⟨["Macのsayで読み上げたよ！🎵"], some false⟩,
           [.loadConfigEv current_config, .sayInvokeEv argv]⟩
      | some false =>
          ⟨.err .sayNonzeroError, [.loadConfigEv current_config, .sayInvokeEv argv]⟩

/-- Path lookup through nested JSON objects. -/
def Json.getPath : Json → List String → Option Json
  | j, [] => some j
  | j, k :: ks =>
      match j.getField k with
      | some v => Json.getPath v ks
      | none => none

theorem lookupKV_setKV (kvs : List (String × Json)) (k : String) (v : Json) :
    lookupKV (setKV kvs k v) k = some v := by
  induction kvs with
  | nil => simp [setKV, lookupKV]
  | cons hd tl ih =>
      obtain ⟨k', v'⟩ := hd
      by_cases h : k' = k
      · simp [setKV, h, lookupKV]
      · simp [setKV, h, lookupKV, ih]

theorem getField_setField (j j2 : Json) (k : String) (v : Json)
    (h : j.setField k v = some j2) : j2.getField k = some v := by
  cases j <;> simp [Json.setField] at h <;>
    subst h <;> simp [Json.getField, lookupKV, lookupKV_setKV]

/-- A test double engine that answers both phases successfully. -/
def engMock : Engine :=
  ⟨fun _ _ => some ⟨200, some (Json.obj [])⟩, fun _ _ => some ⟨200, [82, 73, 70, 70]⟩⟩

/-- A playback environment whose utility launches and exits successfully. -/
def penvMock : PlayEnv :=
  ⟨["keep.wav"], "tmp-call.wav", true, true, fun _ => some true⟩

/-- Concrete tool arguments: text only, speaker and speed omitted. -/
def argsJsonMock : Json := Json.obj [("text", .str "hi")]

/-- The parse of `argsJsonMock`. -/
def vaMock : VoiceEngineArgs := ⟨"hi", none, none⟩

/-- C1: for every inbound HTTP-engine synthesis call, the effective speaker id
is resolved with strict left-to-right precedence over (request argument,
configured default, constant 1): the speaker sent with the dispatch's opening
`audio_query` equals `request.speaker` when present, else the configured
default when present, else `1`, for all combinations of presence. -/
theorem c1_effective_speaker_precedence
    (eng : Engine) (penv : PlayEnv) (j : Json) (cfg : Option Nat)
    (va : VoiceEngineArgs) (hp : parseVoiceEngineArgs j = some va) :
    (call_voicevox_compatible eng penv (some j) cfg).events.head? =
      some (.evAudioQuery va.text (effectiveSpeaker va.speaker cfg)) ∧
    effectiveSpeaker va.speaker cfg =
      (match va.speaker, cfg with
       | some a, _ => a
       | none, some d => d
       | none, none => 1) := by
  constructor
  · simp only [call_voicevox_compatible, hp]
    cases haq : eng.audioQuery va.text (effectiveSpeaker va.speaker cfg) with
    | none => simp
    | some qr =>
      cases hbj : qr.bodyJson with
      | none => simp [hbj]
      | some qj =>
        cases hsf : qj.setField "speedScale" (.num (va.speed.getD 1)) with
        | none => simp [hbj, hsf]
        | some qj2 =>
          cases hs : eng.synthesis (effectiveSpeaker va.speaker cfg) qj2 with
          | none => simp [hbj, hsf, hs]
          | some sr => simp [hbj, hsf, hs]
  · cases va.speaker <;> cases cfg <;> simp [effectiveSpeaker]

/-- Witness for C1 at a concrete call: speaker omitted, configured default 5. -/
theorem c1_effective_speaker_precedence_witness :
    parseVoiceEngineArgs argsJsonMock = some vaMock ∧
    ((call_voicevox_compatible engMock penvMock (some argsJsonMock) (some 5)).events.head? =
       some (.evAudioQuery vaMock.text (effectiveSpeaker vaMock.speaker (some 5))) ∧
     effectiveSpeaker vaMock.speaker (some 5) =
       (match vaMock.speaker, (some 5 : Option Nat) with
        | some a, _ => a
        | none, some d => d
        | none, none => 1)) :=
  ⟨rfl, c1_effective_speaker_precedence engMock penvMock argsJsonMock (some 5) vaMock rfl⟩

/-- C4: for every catalog (present or absent) and configured default, the
schema's speaker default equals the configured default when set and 1
otherwise — independently of the enumerated choices — and the speed field
always defaults to 1.0. -/
theorem c4_schema_default_value (C : Option (List SpeakerInfo)) (D : Option Nat) :
    (build_speaker_choice_schema C D).getPath ["properties", "speaker", "default"] =
      some (.num (D.getD 1)) ∧
    (build_speaker_choice_schema C D).getPath ["properties", "speed", "default"] =
      some (.num 1) := by
  cases C <;> exact ⟨rfl, rfl⟩

/-- The one enumerated choice the schema emits per (entry, style) pair:
value `style.id`, label `"{entry.name} ({style.name})"`. -/
def styleChoice (entryName : String) (st : StyleInfo) : Json :=
  Json.obj [("const", .num st.id), ("title", .str (entryName ++ " (" ++ st.name ++ ")"))]

/-- C5: the schema from an absent catalog has no enumeration (permissive
integer field); the schema from a present catalog enumerates exactly
`sum(len(entry.styles))` choices, one per (entry, style) pair, with value
`style.id` and label `"{entry.name} ({style.name})"`. -/
theorem c5_schema_enumeration (C : List SpeakerInfo) (D : Option Nat) :
    (build_speaker_choice_schema none D).getPath ["properties", "speaker", "oneOf"] = none ∧
    (build_speaker_choice_schema none D).getPath ["properties", "speaker", "type"] =
      some (.str "integer") ∧
    (build_speaker_choice_schema (some C) D).getPath ["properties", "speaker", "oneOf"] =
      some (.arr (C.flatMap (fun sp => sp.styles.map (styleChoice sp.name)))) ∧
    (C.flatMap (fun sp => sp.styles.map (styleChoice sp.name))).length =
      (C.map (fun sp => sp.styles.length)).sum := by
  refine ⟨rfl, rfl, rfl, ?_⟩
  simp [List.length_flatMap, Function.comp_def, List.length_map]

/-- C10: a present-but-empty catalog yields the enumerated form with an empty
`oneOf` (and no permissive `"type": "integer"` marker), not the fallback
integer field. -/
theorem c10_empty_catalog_enumerated (D : Option Nat) :
    (build_speaker_choice_schema (some []) D).getPath ["properties", "speaker"] =
      some (.obj [("oneOf", .arr []), ("default", .num (D.getD 1))]) ∧
    (build_speaker_choice_schema (some []) D).getPath ["properties", "speaker", "type"] =
      none := by
  exact ⟨rfl, rfl⟩

/-- C2: for every successful HTTP-engine dispatch, the `audio_query` call
completes before `synthesis` is issued, the document posted to `synthesis`
carries `speedScale` equal to the effective speed (`request.speed` if present
else 1.0), and the same effective speaker id is the speaker parameter of both
phases. -/
theorem c2_two_phase_order
    (eng : Engine) (penv : PlayEnv) (j : Json) (cfg : Option Nat)
    (va : VoiceEngineArgs) (resp : CallToolResponse)
    (hp : parseVoiceEngineArgs j = some va)
    (hok : (call_voicevox_compatible eng penv (some j) cfg).result = .ok resp) :
    ∃ doc rest,
      (call_voicevox_compatible eng penv (some j) cfg).events =
        .evAudioQuery va.text (effectiveSpeaker va.speaker cfg)
          :: .evSynthesis (effectiveSpeaker va.speaker cfg) doc :: rest ∧
      doc.getField "speedScale" = some (.num (va.speed.getD 1)) := by
  simp only [call_voicevox_compatible, hp] at hok ⊢
  cases haq : eng.audioQuery va.text (effectiveSpeaker va.speaker cfg) with
  | none => simp [haq] at hok
  | some qr =>
    cases hbj : qr.bodyJson with
    | none => simp [haq, hbj] at hok
    | some qj =>
      cases hsf : qj.setField "speedScale" (.num (va.speed.getD 1)) with
      | none => simp [haq, hbj, hsf] at hok
      | some qj2 =>
        cases hs : eng.synthesis (effectiveSpeaker va.speaker cfg) qj2 with
        | none => simp [haq, hbj, hsf, hs] at hok
        | some sr =>
          refine ⟨qj2, (play_wav penv sr.bodyBytes).events, ?_, ?_⟩
          · simp [haq, hbj, hsf, hs]
          · exact getField_setField qj qj2 "speedScale" (.num (va.speed.getD 1)) hsf

/-- Witness for C2 at a concrete successful dispatch. -/
theorem c2_two_phase_order_witness :
    ∃ doc rest,
      (call_voicevox_compatible engMock penvMock (some argsJsonMock) none).events =
        .evAudioQuery vaMock.text (effectiveSpeaker vaMock.speaker none)
          :: .evSynthesis (effectiveSpeaker vaMock.speaker none) doc :: rest ∧
      doc.getField "speedScale" = some (.num (vaMock.speed.getD 1)) :=
  c2_two_phase_order engMock penvMock argsJsonMock none vaMock
    ⟨["読み上げ完了！✨"], some false⟩ rfl rfl

/-- An engine whose `audio_query` answers HTTP 500 with a JSON body. -/
def eng500 : Engine :=
  ⟨fun _ _ => some ⟨500, some (Json.obj [])⟩, fun _ _ => none⟩

/-- Counterexample to C3: `audio_query` answers HTTP 500 with a body that
parses as JSON, and the dispatch still issues the `synthesis` call — the
HTTP status is never checked, so a non-2xx response does not abort. -/
theorem c3_counterexample_status_unchecked :
    eng500.audioQuery "hi" 1 = some ⟨500, some (Json.obj [])⟩ ∧
    (call_voicevox_compatible eng500 penvMock (some argsJsonMock) none).events =
      [.evAudioQuery "hi" 1, .evSynthesis 1 (Json.obj [("speedScale", .num 1)])] :=
  ⟨rfl, rfl⟩

/-- C3 as amended: if the `audio_query` phase fails with a transport failure,
or its response body fails to parse as JSON, the dispatch returns a failure,
the `synthesis` call is never issued, and the playback facility is never
invoked (the trace is the lone `audio_query` attempt, and no file is touched). -/
theorem c3_audio_query_failure_aborts
    (eng : Engine) (penv : PlayEnv) (j : Json) (cfg : Option Nat)
    (va : VoiceEngineArgs) (hp : parseVoiceEngineArgs j = some va)
    (hfail : eng.audioQuery va.text (effectiveSpeaker va.speaker cfg) = none ∨
      ∃ r, eng.audioQuery va.text (effectiveSpeaker va.speaker cfg) = some r ∧
        r.bodyJson = none) :
    ((call_voicevox_compatible eng penv (some j) cfg).result = .err .transportError ∨
     (call_voicevox_compatible eng penv (some j) cfg).result = .err .bodyParseError) ∧
    (call_voicevox_compatible eng penv (some j) cfg).events =
      [.evAudioQuery va.text (effectiveSpeaker va.speaker cfg)] ∧
    (call_voicevox_compatible eng penv (some j) cfg).finalFiles = penv.existing := by
  simp only [call_voicevox_compatible, hp]
  rcases hfail with haq | ⟨r, haq, hbj⟩
  · simp [haq]
  · simp [haq, hbj]

/-- An engine that is unreachable (transport failure on both phases). -/
def engDown : Engine := ⟨fun _ _ => none, fun _ _ => none⟩

/-- Witness for the amended C3 at a concrete transport failure. -/
theorem c3_audio_query_failure_aborts_witness :
    ((call_voicevox_compatible engDown penvMock (some argsJsonMock) none).result =
        .err .transportError ∨
     (call_voicevox_compatible engDown penvMock (some argsJsonMock) none).result =
        .err .bodyParseError) ∧
    (call_voicevox_compatible engDown penvMock (some argsJsonMock) none).events =
      [.evAudioQuery vaMock.text (effectiveSpeaker vaMock.speaker none)] ∧
    (call_voicevox_compatible engDown penvMock (some argsJsonMock) none).finalFiles =
      penvMock.existing :=
  c3_audio_query_failure_aborts engDown penvMock argsJsonMock none vaMock rfl (Or.inl rfl)

/-- A config whose VOICEVOX default speaker is 3. -/
def cfgVv3 : AppConfig := ⟨some 3, none, none⟩

/-- A config whose VOICEVOX default speaker is 5. -/
def cfgVv5 : AppConfig := ⟨some 5, none, none⟩

/-- Filesystem at startup: the primary config file parses to `cfgVv3`. -/
def fsStartup : ServerFs := ⟨true, some (some cfgVv3), none⟩

/-- Filesystem at call time: the file was edited to `cfgVv5`. -/
def fsCall : ServerFs := ⟨true, some (some cfgVv5), none⟩

/-- Counterexample to C6: the config file holds default speaker 5 at call
time, the request omits the speaker, yet the VOICEVOX dispatch queries with
speaker 3 — the value captured from the config loaded once at startup. -/
theorem c6_counterexample_stale_http_default :
    (load_config fsCall).voicevox_default_speaker = some 5 ∧
    (dispatch_voicevox fsStartup fsCall engMock penvMock (some argsJsonMock)).events.head? =
      some (.evAudioQuery "hi" 3) ∧
    (3 : Nat) ≠ 5 :=
  ⟨rfl, rfl, by decide⟩

/-- C6 as amended: the two HTTP-engine dispatches use the default speaker
captured from the config loaded once at startup — they are invariant under
any change to the config file after startup — while the native `speak`
dispatch re-loads the config from the call-time filesystem. -/
theorem c6_config_freshness_split
    (fs0 fs1 fs1' : ServerFs) (eng : Engine) (penv : PlayEnv)
    (args : Option Json) (sayRun : List String → Option Bool) :
    dispatch_voicevox fs0 fs1 eng penv args = dispatch_voicevox fs0 fs1' eng penv args ∧
    dispatch_aivis fs0 fs1 eng penv args = dispatch_aivis fs0 fs1' eng penv args ∧
    ∀ (j : Json) (sa : SpeakArgs), parseSpeakArgs j = some sa →
      (speak_tool_handler fs1 sayRun (some j)).events.head? =
        some (.loadConfigEv (load_config fs1)) := by
  refine ⟨rfl, rfl, ?_⟩
  intro j sa hp
  simp only [speak_tool_handler, hp]
  cases hr : sayRun (sayArgv sa (sa.voice.or (load_config fs1).macos_default_voice)) with
  | none => simp [hr]
  | some b => cases b <;> simp [hr]

/-- Concrete native-tool arguments: text only. -/
def speakJsonMock : Json := Json.obj [("text", .str "hello")]

/-- The parse of `speakJsonMock`. -/
def saMock : SpeakArgs := ⟨"hello", none, none⟩

/-- Witness for the amended C6 at a concrete native call. -/
theorem c6_config_freshness_split_witness :
    (speak_tool_handler fsCall (fun _ => some true) (some speakJsonMock)).events.head? =
      some (.loadConfigEv (load_config fsCall)) :=
  (c6_config_freshness_split fsStartup fsCall fsCall engMock penvMock (some speakJsonMock)
    (fun _ => some true)).2.2 speakJsonMock saMock rfl

/-- C7: every native-OS-engine call re-reads the Config Store immediately
before invoking the OS speech utility (the trace is a call-time config load
followed by the `say` invocation); the effective voice is the request voice,
else the fresh-read configured voice, else the voice flag is omitted
entirely; nonzero exit or launch failure of the utility is a failure. -/
theorem c7_native_engine_fresh_config
    (fs : ServerFs) (sayRun : List String → Option Bool) (j : Json) (sa : SpeakArgs)
    (hp : parseSpeakArgs j = some sa) :
    (speak_tool_handler fs sayRun (some j)).events =
      [.loadConfigEv (load_config fs),
       .sayInvokeEv (sayArgv sa (sa.voice.or (load_config fs).macos_default_voice))] ∧
    (sayArgv sa none =
      sa.text :: (match sa.speed with | some s => ["-r", toString s] | none => [])) ∧
    (sayRun (sayArgv sa (sa.voice.or (load_config fs).macos_default_voice)) = some false →
      (speak_tool_handler fs sayRun (some j)).result = .err .sayNonzeroError) ∧
    (sayRun (sayArgv sa (sa.voice.or (load_config fs).macos_default_voice)) = none →
      (speak_tool_handler fs sayRun (some j)).result = .err .sayLaunchError) := by
  cases hr : sayRun (sayArgv sa (sa.voice.or (load_config fs).macos_default_voice)) with
  | none =>
      refine ⟨?_, rfl, ?_, ?_⟩
      · simp [speak_tool_handler, hp, hr]
      · simp [hr]
      · intro _
        simp [speak_tool_handler, hp, hr]
  | some b =>
      cases b with
      | true =>
          refine ⟨?_, rfl, ?_, ?_⟩
          · simp [speak_tool_handler, hp, hr]
          · simp [hr]
          · simp [hr]
      | false =>
          refine ⟨?_, rfl, ?_, ?_⟩
          · simp [speak_tool_handler, hp, hr]
          · intro _
            simp [speak_tool_handler, hp, hr]
          · simp [hr]

/-- Witness for C7 at a concrete call whose `say` exits nonzero. -/
theorem c7_native_engine_fresh_config_witness :
    (speak_tool_handler fsCall (fun _ => some false) (some speakJsonMock)).events =
      [.loadConfigEv (load_config fsCall),
       .sayInvokeEv (sayArgv saMock (saMock.voice.or (load_config fsCall).macos_default_voice))] ∧
    (speak_tool_handler fsCall (fun _ => some false) (some speakJsonMock)).result =
      .err .sayNonzeroError :=
  ⟨(c7_native_engine_fresh_config fsCall (fun _ => some false) speakJsonMock saMock rfl).1,
   (c7_native_engine_fresh_config fsCall (fun _ => some false) speakJsonMock saMock rfl).2.2.1 rfl⟩

/-- C8: the audio is written to a fresh per-call temporary file that is
removed when the call's scope exits regardless of outcome, and when the
playback utility exits nonzero or fails to launch the playback — and the
whole dispatch, even after a successful two-phase synthesis — returns a
playback failure, never success. -/
theorem c8_playback_failure_and_tempfile
    (penv : PlayEnv) (wav : List Nat)
    (hfresh : penv.freshName ∉ penv.existing)
    (hc : penv.tempCreateOk = true) (hw : penv.writeOk = true) :
    ((play_wav penv wav).events.head? = some (.evFileWrite penv.freshName wav) ∧
     penv.freshName ∉ penv.existing ∧
     (play_wav penv wav).events.getLast? = some (.evFileRemove penv.freshName) ∧
     (play_wav penv wav).finalFiles = penv.existing) ∧
    (penv.player penv.freshName = some false →
      (play_wav penv wav).result = .err .playbackNonzeroError) ∧
    (penv.player penv.freshName = none →
      (play_wav penv wav).result = .err .playbackLaunchError) ∧
    (∀ (eng : Engine) (j : Json) (cfg : Option Nat) (va : VoiceEngineArgs)
       (qr : HttpResp) (qj qj2 : Json) (sr : SynthResp),
      parseVoiceEngineArgs j = some va →
      eng.audioQuery va.text (effectiveSpeaker va.speaker cfg) = some qr →
      qr.bodyJson = some qj →
      qj.setField "speedScale" (.num (va.speed.getD 1)) = some qj2 →
      eng.synthesis (effectiveSpeaker va.speaker cfg) qj2 = some sr →
      penv.player penv.freshName ≠ some true →
      ((call_voicevox_compatible eng penv (some j) cfg).result = .err .playbackNonzeroError ∨
       (call_voicevox_compatible eng penv (some j) cfg).result = .err .playbackLaunchError) ∧
      (call_voicevox_compatible eng penv (some j) cfg).finalFiles = penv.existing) := by
  refine ⟨?_, ?_, ?_, ?_⟩
  · cases hpl : penv.player penv.freshName with
    | none =>
        exact ⟨by simp [play_wav, hc, hw, hpl], hfresh,
          by simp [play_wav, hc, hw, hpl], by simp [play_wav, hc, hw, hpl]⟩
    | some b =>
        cases b <;>
          exact ⟨by simp [play_wav, hc, hw, hpl], hfresh,
            by simp [play_wav, hc, hw, hpl], by simp [play_wav, hc, hw, hpl]⟩
  · intro hpl
    simp [play_wav, hc, hw, hpl]
  · intro hpl
    simp [play_wav, hc, hw, hpl]
  · intro eng j cfg va qr qj qj2 sr hp haq hbj hsf hs hne
    simp only [call_voicevox_compatible, hp, haq, hbj, hsf, hs]
    cases hpl : penv.player penv.freshName with
    | none => simp [play_wav, hc, hw, hpl]
    | some b =>
      cases b with
      | true => exact absurd hpl hne
      | false => simp [play_wav, hc, hw, hpl]

/-- A playback environment whose utility launches but exits nonzero. -/
def penvFail : PlayEnv :=
  ⟨["keep.wav"], "tmp-call.wav", true, true, fun _ => some false⟩

/-- Witness for C8 at a concrete call: synthesis succeeds, playback exits
nonzero, the dispatch fails and the temp file is gone. -/
theorem c8_playback_failure_and_tempfile_witness :
    (play_wav penvFail [1]).finalFiles = penvFail.existing ∧
    (play_wav penvFail [1]).result = .err .playbackNonzeroError ∧
    ((call_voicevox_compatible engMock penvFail (some argsJsonMock) none).result =
        .err .playbackNonzeroError ∨
     (call_voicevox_compatible engMock penvFail (some argsJsonMock) none).result =
        .err .playbackLaunchError) :=
  ⟨((c8_playback_failure_and_tempfile penvFail [1] (by decide) rfl rfl).1).2.2.2,
   (c8_playback_failure_and_tempfile penvFail [1] (by decide) rfl rfl).2.1 rfl,
   ((c8_playback_failure_and_tempfile penvFail [1] (by decide) rfl rfl).2.2.2 engMock
      argsJsonMock none vaMock ⟨200, some (Json.obj [])⟩ (Json.obj [])
      (Json.obj [("speedScale", .num 1)]) ⟨200, [82, 73, 70, 70]⟩
      rfl rfl rfl rfl rfl (by decide)).1⟩

/-- A config whose VOICEVOX default speaker is 7. -/
def cfgSeven : AppConfig := ⟨some 7, none, none⟩

/-- Editor filesystem: primary file readable but unparseable, a valid config
in the current working directory. -/
def efsBadPrimary : EditorFs := ⟨true, some none, none, some (some cfgSeven)⟩

/-- Counterexample to C9: in the config editor, a readable but unparseable
primary file yields the default configuration without the secondary lookup
being attempted — the valid config sitting in the current working directory
is ignored. -/
theorem c9_counterexample_editor_no_fallback :
    efsBadPrimary.homeRead = some none ∧
    efsBadPrimary.cwdRead = some (some cfgSeven) ∧
    editor_load_config efsBadPrimary = AppConfig.default ∧
    AppConfig.default ≠ cfgSeven :=
  ⟨rfl, rfl, rfl, by decide⟩

/-- C9 as amended: config reads never propagate an error — every failure path
ends in the default configuration. The server attempts its secondary lookup
(next to the executable, not in the CWD) whenever the primary read fails or
fails to parse; the editor attempts its secondary lookup (in the CWD) only
when the primary read fails, and a readable-but-unparseable primary file
yields the default with no secondary attempt. -/
theorem c9_config_load_fallback (sfs : ServerFs) (efs : EditorFs) :
    (sfs.hasHome = true → (sfs.homeRead = none ∨ sfs.homeRead = some none) →
      load_config sfs =
        (match sfs.exeRead with
         | some (some c) => c
         | _ => AppConfig.default)) ∧
    (sfs.hasHome = false →
      load_config sfs =
        (match sfs.exeRead with
         | some (some c) => c
         | _ => AppConfig.default)) ∧
    (efs.hasHome = true → efs.homeRead = none →
      editor_load_config efs =
        (match efs.cwdRead with
         | some (some c) => c
         | _ => AppConfig.default)) ∧
    (efs.hasHome = true → efs.homeRead = some none →
      editor_load_config efs = AppConfig.default) := by
  refine ⟨?_, ?_, ?_, ?_⟩
  · intro hh hr
    rcases hr with hr | hr <;> simp [load_config, hh, hr]
  · intro hh
    simp [load_config, hh]
  · intro hh hr
    simp [editor_load_config, hh, hr]
  · intro hh hr
    simp [editor_load_config, hh, hr]

/-- Server filesystem: primary unreadable, a valid config next to the
executable. -/
def sfsFallback : ServerFs := ⟨true, none, some (some cfgSeven)⟩

/-- Witness for the amended C9: the server falls back to the executable-side
file; the editor returns the default on an unparseable primary. -/
theorem c9_config_load_fallback_witness :
    load_config sfsFallback =
      (match sfsFallback.exeRead with
       | some (some c) => c
       | _ => AppConfig.default) ∧
    editor_load_config efsBadPrimary = AppConfig.default :=
  ⟨(c9_config_load_fallback sfsFallback efsBadPrimary).1 rfl (Or.inl rfl),
   (c9_config_load_fallback sfsFallback efsBadPrimary).2.2.2 rfl rfl⟩
